import Mathlib

set_option maxRecDepth 100000

/-!
# Verification of the GoogleRSSFeedUpdated core

Shallow embedding of the repository's core (`src/utils/helpers.py`,
`src/rss_parser.py`, `src/storage_manager.py`) together with theorems
settling the frozen claims about it.

Conventions of the embedding:
* Python `str` is Lean `String`; `str.strip()` is `pystrip` below
  (both ends, ASCII whitespace).
* machine words are `Nat` reduced mod `2^32` where the source relies on
  32-bit wraparound (inside SHA-256);
* `hashlib.sha256(...).hexdigest()` is a full executable SHA-256 over the
  UTF-8 bytes of the string, producing the lowercase hex digest;
* fallible code returns `Except`; a Python `raise` that escapes the
  function is an `Except.error`;
* external collaborators (`dateutil.parser.parse` composed with
  `strftime`, `feedparser` entries) enter as explicit parameters /
  structures since their code is not part of the repository.
-/

/-- ASCII whitespace as recognised by Python's `str.strip()` (the
characters stripped from ordinary ASCII text): space, tab, newline,
carriage return, vertical tab, form feed. -/
def isPySpace (c : Char) : Bool :=
  c.toNat = 32 || c.toNat = 9 || c.toNat = 10 || c.toNat = 13 ||
  c.toNat = 11 || c.toNat = 12

/-- Strip `isPySpace` characters from both ends of a character list. -/
def stripChars (l : List Char) : List Char :=
  ((l.dropWhile isPySpace).reverse.dropWhile isPySpace).reverse

/-- Python `s.strip()` (no argument): remove whitespace from both ends. -/
def pystrip (s : String) : String :=
  ⟨stripChars s.data⟩

/-- UTF-8 encoding of one unicode scalar value, as Python's
`str.encode('utf-8')` produces it. -/
def utf8Char (c : Char) : List Nat :=
  let n := c.toNat
  if n < 128 then [n]
  else if n < 2048 then [192 + n / 64, 128 + n % 64]
  else if n < 65536 then [224 + n / 4096, 128 + n / 64 % 64, 128 + n % 64]
  else [240 + n / 262144, 128 + n / 4096 % 64, 128 + n / 64 % 64, 128 + n % 64]

/-- UTF-8 encoding of a string as a list of byte values. -/
def utf8Encode (s : String) : List Nat :=
  s.data.flatMap utf8Char

namespace Sha256

/-- Reduce to a 32-bit word. -/
def w32 (n : Nat) : Nat := n % 4294967296

/-- Right rotation of a 32-bit word by `n` places. -/
def rotr (n x : Nat) : Nat :=
  w32 (x / 2 ^ n + x % 2 ^ n * 2 ^ (32 - n))

/-- Bitwise complement within 32 bits. -/
def bnot (x : Nat) : Nat := x ^^^ 4294967295

def ch (x y z : Nat) : Nat := (x &&& y) ^^^ (bnot x &&& z)

def maj (x y z : Nat) : Nat := (x &&& y) ^^^ (x &&& z) ^^^ (y &&& z)

def bsig0 (x : Nat) : Nat := rotr 2 x ^^^ rotr 13 x ^^^ rotr 22 x

def bsig1 (x : Nat) : Nat := rotr 6 x ^^^ rotr 11 x ^^^ rotr 25 x

def ssig0 (x : Nat) : Nat := rotr 7 x ^^^ rotr 18 x ^^^ x / 8

def ssig1 (x : Nat) : Nat := rotr 17 x ^^^ rotr 19 x ^^^ x / 1024

/-- The 64 round constants of FIPS 180-4 section 4.2.2, in decimal. -/
def K : List Nat :=
  [1116352408, 1899447441, 3049323471, 3921009573, 961987163,
   1508970993, 2453635748, 2870763221, 3624381080, 310598401,
   607225278, 1426881987, 1925078388, 2162078206, 2614888103,
   3248222580, 3835390401, 4022224774, 264347078, 604807628,
   770255983, 1249150122, 1555081692, 1996064986, 2554220882,
   2821834349, 2952996808, 3210313671, 3336571891, 3584528711,
   113926993, 338241895, 666307205, 773529912, 1294757372,
   1396182291, 1695183700, 1986661051, 2177026350, 2456956037,
   2730485921, 2820302411, 3259730800, 3345764771, 3516065817,
   3600352804, 4094571909, 275423344, 430227734, 506948616,
   659060556, 883997877, 958139571, 1322822218, 1537002063,
   1747873779, 1955562222, 2024104815, 2227730452, 2361852424,
   2428436474, 2756734187, 3204031479, 3329325298]

/-- Big-endian byte decomposition: `k` bytes of `n`. -/
def beBytes (k n : Nat) : List Nat :=
  (List.range k).map fun i => n / 2 ^ (8 * (k - 1 - i)) % 256

/-- SHA-256 padding: append `0x80`, zeros to 56 mod 64, then the 64-bit
big-endian bit length. -/
def padMessage (m : List Nat) : List Nat :=
  m ++ [128] ++ List.replicate ((119 - m.length % 64) % 64) 0
    ++ beBytes 8 (m.length * 8)

/-- Split a byte list into consecutive 32-bit big-endian words. -/
def toWords : List Nat → List Nat
  | b0 :: b1 :: b2 :: b3 :: rest =>
      (b0 * 16777216 + b1 * 65536 + b2 * 256 + b3) :: toWords rest
  | _ => []

/-- Split a list into chunks of 64 elements (the padded message is always
a multiple of 64 bytes long); the first argument is fuel making the
recursion structural, instantiated with the list length. -/
def chunks64Aux : Nat → List Nat → List (List Nat)
  | 0, _ => []
  | fuel + 1, l =>
      if l.length < 64 then []
      else l.take 64 :: chunks64Aux fuel (l.drop 64)

/-- Split a list into chunks of 64 elements. -/
def chunks64 (l : List Nat) : List (List Nat) :=
  chunks64Aux l.length l

/-- Extend the 16 message words to 64 schedule words; `n` is the number of
words still to append. -/
def extendSchedule : Nat → List Nat → List Nat
  | 0, w => w
  | n + 1, w =>
      let t := w.length
      extendSchedule n
        (w ++ [w32 (ssig1 (w.getD (t - 2) 0) + w.getD (t - 7) 0 +
                    ssig0 (w.getD (t - 15) 0) + w.getD (t - 16) 0)])

/-- The eight-word working state. -/
structure St where
  a : Nat
  b : Nat
  c : Nat
  d : Nat
  e : Nat
  f : Nat
  g : Nat
  h : Nat
deriving DecidableEq

/-- Initial hash value (FIPS 180-4 section 5.3.3), in decimal. -/
def H0 : St :=
  ⟨1779033703, 3144134277, 1013904242, 2773480762,
   1359893119, 2600822924, 528734635, 1541459225⟩

/-- One compression round with constant `kt` and schedule word `wt`. -/
def round (s : St) (kw : Nat × Nat) : St :=
  let t1 := w32 (s.h + bsig1 s.e + ch s.e s.f s.g + kw.1 + kw.2)
  let t2 := w32 (bsig0 s.a + maj s.a s.b s.c)
  ⟨w32 (t1 + t2), s.a, s.b, s.c, w32 (s.d + t1), s.e, s.f, s.g⟩

/-- Compress one 64-byte block into the chaining state. -/
def compress (s : St) (block : List Nat) : St :=
  let w := extendSchedule 48 (toWords block)
  let t := (K.zip w).foldl round s
  ⟨w32 (s.a + t.a), w32 (s.b + t.b), w32 (s.c + t.c), w32 (s.d + t.d),
   w32 (s.e + t.e), w32 (s.f + t.f), w32 (s.g + t.g), w32 (s.h + t.h)⟩

/-- Final state after hashing a byte message. -/
def finalState (m : List Nat) : St :=
  (chunks64 (padMessage m)).foldl compress H0

/-- Lowercase hex digit for a value below 16, as `hexdigest` prints it. -/
def hexDigitChar (n : Nat) : Char :=
  if n < 10 then Char.ofNat (48 + n) else Char.ofNat (87 + n)

/-- Eight lowercase hex digits of one 32-bit word, most significant
first. -/
def wordHex (w : Nat) : List Char :=
  (List.range 8).map fun i => hexDigitChar (w / 16 ^ (7 - i) % 16)

/-- The lowercase hex digest of a byte message, 64 characters. -/
def sha256hex (m : List Nat) : String :=
  let s := finalState m
  ⟨wordHex s.a ++ wordHex s.b ++ wordHex s.c ++ wordHex s.d ++
   wordHex s.e ++ wordHex s.f ++ wordHex s.g ++ wordHex s.h⟩

end Sha256

/-- `hashlib.sha256(s.encode('utf-8')).hexdigest()`. -/
def sha256hexStr (s : String) : String :=
  Sha256.sha256hex (utf8Encode s)

example : sha256hexStr "abc" =
    "ba7816bf8f01cfea414140de5dae2223b00361a396177a9cb410ff61f20015ad" := by
  decide

example : sha256hexStr "" =
    "e3b0c44298fc1c149afbf4c8996fb92427ae41e4649b934ca495991b7852b855" := by
  decide

/-! ## `src/utils/helpers.py` -/

/-- `create_article_hash(title, pub_date)` (helpers.py:116-134): SHA-256 hex
digest of `title.strip() + "|" + pub_date.strip()` encoded as UTF-8.  The
`if not title` / `if not pub_date` `None` guards are identities on strings. -/
def create_article_hash (title pub_date : String) : String :=
  sha256hexStr (pystrip title ++ "|" ++ pystrip pub_date)

/-- `normalize_date(date_string)` (helpers.py:52-78).  The external
`dateutil.parser.parse` composed with `strftime("%Y-%m-%dT%H:%M:%SZ")` is
the explicit parameter `parse`; `parse s = none` models the
`ValueError`/`TypeError` path of the `except` clause, in which the source
returns `date_string.strip()`. -/
def normalize_date (parse : String → Option String) (date_string : String) :
    String :=
  if date_string = "" ∨ pystrip date_string = "" then ""
  else
    match parse date_string with
    | some normalized => normalized
    | none => pystrip date_string

/-- Characters matched by the HTML-entity pattern `[a-zA-Z0-9#]`. -/
def isEntityChar (c : Char) : Bool :=
  (48 ≤ c.toNat && c.toNat ≤ 57) || (65 ≤ c.toNat && c.toNat ≤ 90) ||
  (97 ≤ c.toNat && c.toNat ≤ 122) || c.toNat = 35

/-- `re.sub(r'<[^>]+>', ' ', text)`: each leftmost `<`, at least one
non-`>` character, then the next `>`, becomes one space.  Fuel-driven so
the kernel reduces it; the fuel is the list length, and every step
consumes at least one character. -/
def removeTagsAux : Nat → List Char → List Char
  | 0, l => l
  | _ + 1, [] => []
  | fuel + 1, c :: rest =>
      if c = '<' then
        match rest.findIdx? (· = '>') with
        | some i =>
            if 1 ≤ i then ' ' :: removeTagsAux fuel (rest.drop (i + 1))
            else c :: removeTagsAux fuel rest
        | none => c :: removeTagsAux fuel rest
      else c :: removeTagsAux fuel rest

/-- `re.sub(r'&[a-zA-Z0-9#]+;', ' ', text)`: `&`, a nonempty maximal run
of entity characters, then `;`, becomes one space. -/
def removeEntitiesAux : Nat → List Char → List Char
  | 0, l => l
  | _ + 1, [] => []
  | fuel + 1, c :: rest =>
      if c = '&' then
        let run := rest.takeWhile isEntityChar
        if run ≠ [] ∧ (rest.drop run.length).head? = some ';' then
          ' ' :: removeEntitiesAux fuel (rest.drop (run.length + 1))
        else c :: removeEntitiesAux fuel rest
      else c :: removeEntitiesAux fuel rest

/-- `re.sub(r'\s+', ' ', text)`: collapse every whitespace run to one
space. -/
def collapseWsAux : Nat → List Char → List Char
  | 0, l => l
  | _ + 1, [] => []
  | fuel + 1, c :: rest =>
      if isPySpace c then ' ' :: collapseWsAux fuel (rest.dropWhile isPySpace)
      else c :: collapseWsAux fuel rest

/-- Remove trailing characters satisfying `p` (`str.rstrip()` on the
character list). -/
def dropTrailingChars (l : List Char) : List Char :=
  (l.reverse.dropWhile isPySpace).reverse

/-- `clean_text(text, max_length)` (helpers.py:81-114): strip HTML tags and
entities, trim, collapse whitespace, and truncate to `max_length` with an
`"..."` suffix.  `max_length=None` and `max_length=0` (falsy) both skip
truncation, as does `if max_length and len(cleaned) > max_length`. -/
def clean_text (text : String) (max_length : Option Nat) : String :=
  if text = "" then ""
  else
    let c1 := removeTagsAux text.data.length text.data
    let c2 := removeEntitiesAux c1.length c1
    let c3 := stripChars c2
    let cleaned := collapseWsAux c3.length c3
    match max_length with
    | none => ⟨cleaned⟩
    | some m =>
        if 0 < m ∧ m < cleaned.length then
          ⟨dropTrailingChars (cleaned.take m)⟩ ++ "..."
        else ⟨cleaned⟩

/-- Observable behaviour of one `retry_with_backoff` run: the value
returned or exception re-raised, the number of times `func` was invoked,
and the successive arguments passed to `time.sleep`. -/
structure RetryTrace (ε α : Type) where
  result : Except ε α
  attempts : Nat
  delays : List ℚ

/-- Loop body of `retry_with_backoff` (helpers.py:198-206).  `attempt` is
the loop index, `remaining = max_retries - attempt` counts the retries
still allowed, so `remaining = 0` is exactly the `attempt == max_retries`
re-raise branch.  `func` is the zero-argument fallible operation, given
per-invocation outcomes; `jitter k` models `random.uniform(0, initial_delay*0.5)`
drawn before attempt `k`'s sleep. -/
def retryAux (func : Nat → Except ε α) (initial_delay backoff_factor : ℚ)
    (jitter : Nat → ℚ) : Nat → Nat → RetryTrace ε α
  | attempt, 0 =>
      match func attempt with
      | .ok v => ⟨.ok v, 1, []⟩
      | .error e => ⟨.error e, 1, []⟩
  | attempt, r + 1 =>
      match func attempt with
      | .ok v => ⟨.ok v, 1, []⟩
      | .error _ =>
          let delay := initial_delay * backoff_factor ^ attempt + jitter attempt
          let t := retryAux func initial_delay backoff_factor jitter (attempt + 1) r
          ⟨t.result, t.attempts + 1, delay :: t.delays⟩

/-- `retry_with_backoff(func, max_retries, initial_delay, backoff_factor)`
(helpers.py:182-206) as its observable trace. -/
def retry_with_backoff (func : Nat → Except ε α) (max_retries : Nat)
    (initial_delay backoff_factor : ℚ) (jitter : Nat → ℚ) : RetryTrace ε α :=
  retryAux func initial_delay backoff_factor jitter 0 max_retries

/-! ## `src/rss_parser.py` -/

/-- A normalized article record (field names as in `ARTICLE_SCHEMA`).
Storage reads fields with `article.get(key, '')`, so a missing key and an
empty string are indistinguishable there; all fields are plain strings. -/
structure Article where
  title : String
  link : String
  published : String
  source : String
  snippet : String
  id_hash : String
deriving DecidableEq

/-- The parsed feed value a fetch+parse produces (`RSS_FEED_SCHEMA`). -/
structure FeedResult where
  fetched_at : String
  query : String
  source_url : String
  articles : List Article
deriving DecidableEq

/-- `entry.source` as `feedparser` may present it: an object that may
carry a `title` attribute, or a plain string. -/
inductive EntrySource where
  | struct (title : Option String)
  | plain (s : String)

/-- One block of `entry.content`; `get('value', '')` reads `value`. -/
structure ContentBlock where
  value : Option String

/-- A `feedparser` entry, with `none` for an absent attribute (`hasattr`
is `Option.isSome`, `entry.get(k, '')` is `Option.getD ""`).  `tags`
holds the `term` of each tag (`none` when the tag has no `term`). -/
structure Entry where
  title : Option String
  link : Option String
  published : Option String
  pubDate : Option String
  updated : Option String
  source : Option EntrySource
  tags : List (Option String)
  summary : Option String
  description : Option String
  content : Option (List ContentBlock)

/-- Is `needle` a substring of `hay` (Python `needle in hay`)? -/
def charsContains (hay needle : List Char) : Bool :=
  if needle.isPrefixOf hay then true
  else
    match hay with
    | [] => false
    | _ :: t => charsContains t needle

/-- The tag scan of `_extract_article_data` (rss_parser.py:105-109): the
first tag whose `term` contains `"source"` case-insensitively; `""` when
none does. -/
def findSourceTag : List (Option String) → String
  | [] => ""
  | none :: rest => findSourceTag rest
  | some term :: rest =>
      if charsContains term.toLower.data "source".data then term
      else findSourceTag rest

/-- The source-extraction block of `_extract_article_data`
(rss_parser.py:96-109). -/
def extractSource (e : Entry) : String :=
  let fromAttr :=
    match e.source with
    | some (.struct (some t)) => t
    | some (.plain s) => s
    | _ => ""
  if fromAttr = "" then findSourceTag e.tags else fromAttr

/-- The snippet-extraction chain of `_extract_article_data`
(rss_parser.py:111-121): `summary`, else `description`, else the first
content block's `value`; an empty `content` list falls into the
`str(entry.content)` branch, whose value for an empty list prints as
`"[]"`. -/
def extractSnippetRaw (e : Entry) : String :=
  match e.summary with
  | some s => s
  | none =>
      match e.description with
      | some s => s
      | none =>
          match e.content with
          | some (b :: _) => b.value.getD ""
          | some [] => "[]"
          | none => ""

/-- The publication-date chain of `_extract_article_data`
(rss_parser.py:87-94): `published`, else `pubDate`, else `updated`,
else `''`. -/
def extractPublishedRaw (e : Entry) : String :=
  match e.published with
  | some s => s
  | none =>
      match e.pubDate with
      | some s => s
      | none => e.updated.getD ""

/-- `RSSParser._extract_article_data(entry)` (rss_parser.py:71-141).
`parse` is the external date parser threaded into `normalize_date`.
`id_hash` is computed from the raw published string; only afterwards is
`published` replaced by its normalized form. -/
def extract_article_data (parse : String → Option String) (e : Entry) :
    Article :=
  let title := pystrip (e.title.getD "")
  let link := pystrip (e.link.getD "")
  let published := extractPublishedRaw e
  let source := extractSource e
  let snippet := clean_text (extractSnippetRaw e) (some 300)
  let id_hash := create_article_hash title published
  let published := normalize_date parse published
  ⟨title, link, published, source, snippet, id_hash⟩

/-- `RSSParser._is_valid_article(article)` (rss_parser.py:143-167). -/
def is_valid_article (article : Article) : Bool :=
  if pystrip article.title = "" then false
  else if pystrip article.link = "" ∧ pystrip article.id_hash = "" then false
  else if (pystrip article.title).length < 10 then false
  else true

/-- What `feedparser.parse` hands to `parse_rss`: the feed's
self-declared `link` and its entries. -/
structure Feed where
  flink : Option String
  entries : List Entry

/-- `RSSParser.parse_rss(rss_content, query)` (rss_parser.py:22-69).
`now` models `_get_iso_timestamp()`; `feed` is the already-parsed feed
(`none` or an entry-less feed is the `not feed or not feed.entries`
branch).  Per-entry extraction is total here, so the per-entry
`try/except` never fires and an entry contributes exactly when
`_is_valid_article` accepts its extraction. -/
def parse_rss (parse : String → Option String) (now : String)
    (feed : Option Feed) (query : String) : FeedResult :=
  match feed with
  | none => ⟨now, query, "", []⟩
  | some f =>
      match f.entries with
      | [] => ⟨now, query, "", []⟩
      | _ =>
          ⟨now, query, f.flink.getD "",
           (f.entries.map (extract_article_data parse)).filter
             is_valid_article⟩

/-! ## `src/storage_manager.py` -/

/-- The JSON values the snapshot file can hold (article records only ever
contain strings). -/
inductive Json where
  | str (s : String)
  | arr (l : List Json)
  | obj (m : List (String × Json))

/-- `article.get(key, '')` on a decoded JSON object: the string under
`key`, `''` when absent or not a string. -/
def jsonGetStr (m : List (String × Json)) (key : String) : String :=
  match m.lookup key with
  | some (.str s) => s
  | _ => ""

/-- Read an article record back from decoded JSON via `get` defaults. -/
def jsonToArticle (j : Json) : Article :=
  match j with
  | .obj m =>
      ⟨jsonGetStr m "title", jsonGetStr m "link", jsonGetStr m "published",
       jsonGetStr m "source", jsonGetStr m "snippet", jsonGetStr m "id_hash"⟩
  | _ => ⟨"", "", "", "", "", ""⟩

/-- Serialize an article record (the shape `json.dump` writes for one
article dictionary). -/
def articleToJson (a : Article) : Json :=
  .obj [("title", .str a.title), ("link", .str a.link),
        ("published", .str a.published), ("source", .str a.source),
        ("snippet", .str a.snippet), ("id_hash", .str a.id_hash)]

/-- The day's snapshot file as `_load_existing_data` can encounter it:
absent, present but not parseable as JSON, or parseable to a JSON
value. -/
inductive SnapshotFile where
  | missing
  | invalid
  | json (j : Json)

/-- The dynamic value `_load_existing_data` returns: a dict (keyed by
article identity) or — on the `JSONDecodeError` path — a list. -/
inductive LoadResult where
  | dict (m : List (String × Article))
  | list (l : List Article)
deriving DecidableEq

/-- `StorageManager._load_existing_data(date)` (storage_manager.py:51-85):
missing file → `{}`; parsed non-dict JSON → `{}` (with a warning); a
parsed dict is returned as loaded; unparseable JSON (`JSONDecodeError`,
and likewise the generic `except`) → `[]` — a *list*, despite the
dict-shaped contract of the rest of the class. -/
def load_existing_data (file : SnapshotFile) : LoadResult :=
  match file with
  | .missing => .dict []
  | .invalid => .list []
  | .json j =>
      match j with
      | .obj m => .dict (m.map fun kv => (kv.1, jsonToArticle kv.2))
      | _ => .dict []

/-- The JSON value `_save_data(data, date)` (storage_manager.py:87-105)
writes: `json.dump(list(data.values()), f)` — an *array* of the
partition's article records, not the dict it was loaded from. -/
def save_data_json (data : List (String × Article)) : Json :=
  .arr ((data.map Prod.snd).map articleToJson)

/-- `StorageManager._get_article_hash(article)`
(storage_manager.py:145-165): SHA-256 of the stripped link when present,
else of `title|published` (stripped fields). -/
def get_article_hash (article : Article) : String :=
  let title := pystrip article.title
  let published := pystrip article.published
  let link := pystrip article.link
  let unique_id := if link ≠ "" then link else title ++ "|" ++ published
  if unique_id = "" then "" else sha256hexStr unique_id

/-- `StorageManager._is_duplicate(article, existing_links,
existing_hashes)` (storage_manager.py:120-143). -/
def is_duplicate (article : Article)
    (existing_links existing_hashes : List String) : Bool :=
  let article_link := pystrip article.link
  if article_link ≠ "" ∧ article_link ∈ existing_links then true
  else
    let article_hash := get_article_hash article
    if article_hash ≠ "" ∧ article_hash ∈ existing_hashes then true
    else false

/-- The link set built at storage_manager.py:185: stripped links of the
loaded articles whose raw `link` is truthy. -/
def existingLinksOf (values : List Article) : List String :=
  (values.filter fun a => a.link ≠ "").map fun a => pystrip a.link

/-- The hash set built at storage_manager.py:186: hashes of the loaded
articles whose raw `link` is falsy — linked articles are *not* hashed
into this set. -/
def existingHashesOf (values : List Article) : List String :=
  (values.filter fun a => a.link = "").map get_article_hash

/-- The loop state of `store_feed_data`'s per-article loop
(storage_manager.py:194-222): the day's dict, the two membership sets,
the list of newly added articles, and the duplicate counter.  The sets
are lists whose membership is what the code observes. -/
structure ProcState where
  existing : List (String × Article)
  links : List String
  hashes : List String
  new_articles_list : List Article
  duplicates_found : Nat
deriving DecidableEq

/-- One iteration of the loop at storage_manager.py:194-222. -/
def process_step (st : ProcState) (article : Article) : ProcState :=
  let article_id :=
    if pystrip article.link ≠ "" then pystrip article.link
    else get_article_hash article
  if article_id = "" then
    { st with duplicates_found := st.duplicates_found + 1 }
  else if article_id ∈ st.existing.map Prod.fst then
    { st with duplicates_found := st.duplicates_found + 1 }
  else if is_duplicate article st.links st.hashes then
    { st with duplicates_found := st.duplicates_found + 1 }
  else
    let article_link := pystrip article.link
    { existing := st.existing ++ [(article_id, article)]
      links := if article_link ≠ "" then st.links ++ [article_link]
               else st.links
      hashes := if article_link ≠ "" then st.hashes
                else st.hashes ++ [get_article_hash article]
      new_articles_list := st.new_articles_list ++ [article]
      duplicates_found := st.duplicates_found }

/-- The whole per-article loop of `store_feed_data`. -/
def process_articles (existing : List (String × Article))
    (links hashes : List String) (incoming : List Article) : ProcState :=
  incoming.foldl process_step ⟨existing, links, hashes, [], 0⟩

/-- The exceptions `store_feed_data` actually raises on the embedded
state space: `AttributeError` from `existing_data_dict.values()` when the
load returned a list, and `NameError` from the guard `if new_articles:`
at storage_manager.py:227 — no variable of that name is ever assigned
(only `new_articles_list` and `new_articles_count` are). -/
inductive PyError where
  | attributeError
  | nameError
deriving DecidableEq

/-- The statistics dict `store_feed_data` is documented to return. -/
structure Stats where
  new_articles : Nat
  duplicates_found : Nat
  total_articles : Nat
deriving DecidableEq

/-- `StorageManager.store_feed_data(feed_data)`
(storage_manager.py:167-245) against the given snapshot-file state.
After the loop, line 226 computes `new_articles_count` from
`new_articles_list`, and line 227 evaluates the undefined name
`new_articles`, so every call that survives the `.values()` call ends in
a `NameError`; the save/append/return code below line 227 is
unreachable. -/
def store_feed_data (file : SnapshotFile) (feed_data : FeedResult) :
    Except PyError Stats :=
  match load_existing_data file with
  | .list _ => .error .attributeError
  | .dict existing_data_dict =>
      let values := existing_data_dict.map Prod.snd
      let existing_links := existingLinksOf values
      let existing_hashes := existingHashesOf values
      let incoming_articles := feed_data.articles
      let st := process_articles existing_data_dict existing_links
        existing_hashes incoming_articles
      let _new_articles_count := st.new_articles_list.length
      .error .nameError

/-! ## Sample data

The concrete articles below mirror the fixtures of
`tests/test_storage_manager.py` (`sample_article`, `new_article`). -/

/-- The storage test-suite's `sample_article` (no `id_hash` key ⇒ `""`). -/
def sampleArticle : Article :=
  ⟨"Test Article", "https://example.com/article1",
   "Mon, 01 Jan 2024 12:00:00 GMT", "example.com", "This is a test article",
   ""⟩

/-- The storage test-suite's `new_article`. -/
def sampleArticle2 : Article :=
  ⟨"New Article", "https://example.com/article2",
   "Tue, 02 Jan 2024 12:00:00 GMT", "example.com", "This is a new article",
   ""⟩

/-- `sample_article` with its `link` removed: same `(title, published)`
content identity as `sampleArticle`, but keyed by hash. -/
def sampleNoLink : Article := { sampleArticle with link := "" }

/-- The storage test-suite's `sample_feed_data`, with the given article
list. -/
def sampleFeed (arts : List Article) : FeedResult :=
  ⟨"2024-01-01T12:00:00Z", "test query",
   "https://news.google.com/rss/search?q=test", arts⟩

/-! ## Helper lemmas -/

/-- `stripChars` is leading-`dropWhile` followed by Mathlib's trailing
`rdropWhile`. -/
theorem stripChars_eq_rdropWhile (l : List Char) :
    stripChars l = List.rdropWhile isPySpace (l.dropWhile isPySpace) := rfl

theorem stripChars_idem (l : List Char) :
    stripChars (stripChars l) = stripChars l := by
  rw [stripChars_eq_rdropWhile, stripChars_eq_rdropWhile]
  have hdrop : (List.rdropWhile isPySpace
      (l.dropWhile isPySpace)).dropWhile isPySpace
      = List.rdropWhile isPySpace (l.dropWhile isPySpace) := by
    rw [List.dropWhile_eq_self_iff]
    intro hl
    have hpre := List.rdropWhile_prefix isPySpace (l.dropWhile isPySpace)
    have hlen : 0 < (l.dropWhile isPySpace).length :=
      lt_of_lt_of_le hl (List.IsPrefix.length_le hpre)
    have hget := List.IsPrefix.getElem hpre (by simpa using hl)
    simpa [List.get_eq_getElem, hget] using
      List.dropWhile_get_zero_not isPySpace l hlen
  rw [hdrop, List.rdropWhile_idempotent]

theorem pystrip_idem (s : String) : pystrip (pystrip s) = pystrip s := by
  show (⟨stripChars (stripChars s.data)⟩ : String) = ⟨stripChars s.data⟩
  rw [stripChars_idem]

/-- A list with no whitespace characters is unchanged by `stripChars`. -/
theorem stripChars_of_no_space {l : List Char}
    (h : ∀ c ∈ l, isPySpace c = false) : stripChars l = l := by
  rw [stripChars_eq_rdropWhile]
  have h1 : l.dropWhile isPySpace = l := by
    rw [List.dropWhile_eq_self_iff]
    intro hl
    simp [h _ (List.getElem_mem hl)]
  rw [h1, List.rdropWhile_eq_self_iff]
  intro hl
  simp [h _ (List.getLast_mem hl)]

/-- Lowercase hex digit characters: `0`-`9` and `a`-`f`. -/
def isHexChar (c : Char) : Bool :=
  (48 ≤ c.toNat && c.toNat ≤ 57) || (97 ≤ c.toNat && c.toNat ≤ 102)

theorem isHexChar_hexDigitChar (k : Fin 16) :
    isHexChar (Sha256.hexDigitChar k.val) = true := by
  revert k
  decide

theorem isHexChar_not_space {c : Char} (h : isHexChar c = true) :
    isPySpace c = false := by
  simp only [isHexChar, Bool.or_eq_true, Bool.and_eq_true,
    decide_eq_true_eq] at h
  simp only [isPySpace, Bool.or_eq_false_iff, decide_eq_false_iff_not]
  omega

theorem wordHex_all_hex (w : Nat) :
    ∀ c ∈ Sha256.wordHex w, isHexChar c = true := by
  intro c hc
  simp only [Sha256.wordHex, List.mem_map] at hc
  obtain ⟨i, _, rfl⟩ := hc
  exact isHexChar_hexDigitChar ⟨w / 16 ^ (7 - i) % 16, Nat.mod_lt _ (by omega)⟩

theorem sha256hex_data (m : List Nat) :
    (Sha256.sha256hex m).data =
      Sha256.wordHex (Sha256.finalState m).a ++
      Sha256.wordHex (Sha256.finalState m).b ++
      Sha256.wordHex (Sha256.finalState m).c ++
      Sha256.wordHex (Sha256.finalState m).d ++
      Sha256.wordHex (Sha256.finalState m).e ++
      Sha256.wordHex (Sha256.finalState m).f ++
      Sha256.wordHex (Sha256.finalState m).g ++
      Sha256.wordHex (Sha256.finalState m).h := by
  simp [Sha256.sha256hex]

theorem wordHex_length (w : Nat) : (Sha256.wordHex w).length = 8 := by
  simp [Sha256.wordHex]

theorem sha256hex_length (m : List Nat) :
    (Sha256.sha256hex m).length = 64 := by
  show (Sha256.sha256hex m).data.length = 64
  rw [sha256hex_data]
  simp [wordHex_length]

theorem sha256hex_all_hex (m : List Nat) :
    ∀ c ∈ (Sha256.sha256hex m).data, isHexChar c = true := by
  intro c hc
  rw [sha256hex_data] at hc
  simp only [List.mem_append] at hc
  rcases hc with ((((((h | h) | h) | h) | h) | h) | h) | h <;>
    exact wordHex_all_hex _ _ h

theorem create_article_hash_length (t p : String) :
    (create_article_hash t p).length = 64 :=
  sha256hex_length _

theorem create_article_hash_all_hex (t p : String) :
    ∀ c ∈ (create_article_hash t p).data, isHexChar c = true :=
  sha256hex_all_hex _

theorem create_article_hash_ne_empty (t p : String) :
    create_article_hash t p ≠ "" := by
  intro h
  have := create_article_hash_length t p
  rw [h] at this
  simp at this

theorem pystrip_create_article_hash (t p : String) :
    pystrip (create_article_hash t p) = create_article_hash t p := by
  show (⟨stripChars (create_article_hash t p).data⟩ : String) = _
  rw [stripChars_of_no_space
    (fun c hc => isHexChar_not_space (create_article_hash_all_hex t p c hc))]

theorem extract_id_hash (parse : String → Option String) (e : Entry) :
    (extract_article_data parse e).id_hash =
      create_article_hash (pystrip (e.title.getD ""))
        (extractPublishedRaw e) := rfl

/-! ## Claim theorems -/

/-- **C1** (store idempotence).  The claim fails on the code: already the
*first* `store_feed_data` call never returns statistics — after its loop
(which, on an empty day partition, would classify both sample articles as
new) it evaluates the undefined name `new_articles` at
storage_manager.py:227 and dies with a `NameError`, so no call yields
`new_articles = N`, let alone a second call yielding `0`/`N`. -/
theorem store_feed_data_raises_before_returning_stats :
    store_feed_data .missing (sampleFeed [sampleArticle, sampleArticle2])
      = .error .nameError
    ∧ (process_articles [] [] [] [sampleArticle, sampleArticle2]).new_articles_list
      = [sampleArticle, sampleArticle2]
    ∧ (process_articles [] [] [] [sampleArticle, sampleArticle2]).duplicates_found
      = 0 := by
  refine ⟨rfl, by decide, rfl⟩

/-- **C2** (snapshot round-trip).  The claim fails on the code:
`_save_data` serializes the partition as a JSON *array*
(`list(data.values())`), but `_load_existing_data` returns `{}` for every
parsed non-dict JSON value, so a saved snapshot is always read back as an
empty partition and a later store on the same day sees none of the
previously persisted articles. -/
theorem snapshot_roundtrip_loses_partition :
    (∀ data : List (String × Article),
      load_existing_data (.json (save_data_json data)) = .dict [])
    ∧ save_data_json [(sampleArticle.link, sampleArticle)]
      = .arr [articleToJson sampleArticle]
    ∧ load_existing_data
        (.json (save_data_json [(sampleArticle.link, sampleArticle)]))
      ≠ .dict [(sampleArticle.link, sampleArticle)] := by
  refine ⟨fun data => rfl, rfl, by decide⟩

/-- **C3** (corrupt-snapshot tolerance).  The claim fails on the code: on
an unparseable snapshot `_load_existing_data` returns `[]` — a list, not
the empty dict — and `store_feed_data` then crashes with
`AttributeError` on `existing_data_dict.values()` at
storage_manager.py:185, instead of treating the partition as empty and
succeeding with `new_articles = 1` (and even the missing-file path cannot
succeed, by the `NameError` of line 227). -/
theorem corrupt_snapshot_store_is_fatal :
    load_existing_data .invalid = .list []
    ∧ store_feed_data .invalid (sampleFeed [sampleArticle])
      = .error .attributeError
    ∧ store_feed_data .missing (sampleFeed [sampleArticle])
      = .error .nameError := by
  exact ⟨rfl, rfl, rfl⟩

/-- **C4** (same-batch self-deduplication).  The loop logic does
self-deduplicate — two identical articles on an empty partition leave
`new_articles_list = [a]` and `duplicates_found = 1` — but the claim
still fails on the code because `store_feed_data` never returns those
statistics: it raises `NameError` at storage_manager.py:227. -/
theorem same_batch_self_dedup_then_name_error :
    (process_articles [] [] [] [sampleArticle, sampleArticle]).new_articles_list
      = [sampleArticle]
    ∧ (process_articles [] [] [] [sampleArticle, sampleArticle]).duplicates_found
      = 1
    ∧ store_feed_data .missing (sampleFeed [sampleArticle, sampleArticle])
      = .error .nameError := by
  refine ⟨by decide, rfl, rfl⟩

/-- **C5** (cross-identity duplicate detection).  The claim fails on the
code: with `sampleArticle` stored under its non-empty link, the hash
lookup set (storage_manager.py:186) is *empty* — it only hashes stored
articles that lack a link, and `_get_article_hash` hashes a linked
article by its link rather than by `title|published` anyway — so the
incoming link-less `sampleNoLink` (same title and published, hence the
same content hash) is classified as new, not as a duplicate; the
enclosing call then dies with the line-227 `NameError`. -/
theorem cross_identity_duplicate_missed :
    existingHashesOf [sampleArticle] = []
    ∧ is_duplicate sampleNoLink (existingLinksOf [sampleArticle])
        (existingHashesOf [sampleArticle]) = false
    ∧ (process_articles [(sampleArticle.link, sampleArticle)]
        (existingLinksOf [sampleArticle]) (existingHashesOf [sampleArticle])
        [sampleNoLink]).duplicates_found = 0
    ∧ (process_articles [(sampleArticle.link, sampleArticle)]
        (existingLinksOf [sampleArticle]) (existingHashesOf [sampleArticle])
        [sampleNoLink]).new_articles_list = [sampleNoLink]
    ∧ store_feed_data
        (.json (.obj [(sampleArticle.link, articleToJson sampleArticle)]))
        (sampleFeed [sampleNoLink]) = .error .nameError := by
  refine ⟨rfl, rfl, rfl, by decide, rfl⟩

/-- All retries failing, `retryAux` from any starting attempt returns the
final error, one invocation per remaining try plus one, and one delay of
`d0 * b ^ k` plus that attempt's jitter per failed non-final attempt. -/
theorem retryAux_all_fail {ε α : Type} (func : Nat → Except ε α)
    (d0 b : ℚ) (jitter : Nat → ℚ) (e : Nat → ε)
    (hf : ∀ k, func k = .error (e k)) (r : Nat) :
    ∀ attempt : Nat,
      retryAux func d0 b jitter attempt r =
        ⟨.error (e (attempt + r)), r + 1,
         (List.range r).map fun i => d0 * b ^ (attempt + i) + jitter (attempt + i)⟩ := by
  induction r with
  | zero => intro attempt; simp [retryAux, hf attempt]
  | succ r ih =>
      intro attempt
      simp only [retryAux, hf attempt]
      rw [ih (attempt + 1)]
      have hn : attempt + 1 + r = attempt + (r + 1) := by omega
      rw [hn, List.range_succ_eq_map, List.map_cons, List.map_map]
      refine congrArg (RetryTrace.mk _ _) ?_
      refine congrArg₂ List.cons (by rw [Nat.add_zero]) ?_
      refine List.map_congr_left fun i _ => ?_
      have h2 : attempt + 1 + i = attempt + (i + 1) := by omega
      simp [Function.comp, Nat.succ_eq_add_one, h2]

/-- **C6** (backoff executor contract).  When every attempt fails,
`retry_with_backoff(func, R, d0, b)` invokes `func` exactly `R + 1`
times, re-raises the final attempt's exception, and sleeps before
attempt `k + 1` for `d0 * b ^ (k - 1)` plus that attempt's jitter draw
(`delays[k - 1] = d0 * b ^ (k - 1) + jitter (k - 1)` for
`k = 1, ..., R`); with `R = 0` the single execution's failure
propagates with no sleep.  For `d0 = 1, b = 2, R = 3` the non-jittered
components are `1, 2, 4` (see the witness). -/
theorem retry_with_backoff_contract {ε α : Type} (func : Nat → Except ε α)
    (max_retries : Nat) (initial_delay backoff_factor : ℚ)
    (jitter : Nat → ℚ) (e : Nat → ε)
    (hf : ∀ k, func k = .error (e k)) :
    (retry_with_backoff func max_retries initial_delay backoff_factor
        jitter).attempts = max_retries + 1
    ∧ (retry_with_backoff func max_retries initial_delay backoff_factor
        jitter).result = .error (e max_retries)
    ∧ (retry_with_backoff func max_retries initial_delay backoff_factor
        jitter).delays
      = (List.range max_retries).map
          fun k => initial_delay * backoff_factor ^ k + jitter k := by
  have h := retryAux_all_fail func initial_delay backoff_factor jitter e hf
    max_retries 0
  rw [retry_with_backoff, h]
  refine ⟨rfl, by rw [Nat.zero_add], ?_⟩
  exact List.map_congr_left fun i _ => by rw [Nat.zero_add]

/-- Witness for C6: a function failing every time with exception `0`,
`max_retries = 3`, `initial_delay = 1`, `backoff_factor = 2`, zero
jitter: 4 attempts, the exception re-raised, delays `[1, 2, 4]`. -/
theorem retry_with_backoff_contract_witness :
    (retry_with_backoff (fun _ => (.error 0 : Except Nat Nat)) 3 1 2
        (fun _ => 0)).attempts = 4
    ∧ (retry_with_backoff (fun _ => (.error 0 : Except Nat Nat)) 3 1 2
        (fun _ => 0)).result = .error 0
    ∧ (retry_with_backoff (fun _ => (.error 0 : Except Nat Nat)) 3 1 2
        (fun _ => 0)).delays = [1, 2, 4] := by
  obtain ⟨h1, h2, h3⟩ := retry_with_backoff_contract
    (fun _ => (.error 0 : Except Nat Nat)) 3 1 2 (fun _ => 0) (fun _ => 0)
    (fun _ => rfl)
  refine ⟨h1, h2, ?_⟩
  rw [h3]
  norm_num [List.range_succ]

/-- **C7** (article fingerprint).  `create_article_hash` is the SHA-256
hex digest of `trim(title) + "|" + trim(published)`; it is a pure
function, so determinism is inherent; surrounding whitespace does not
change it; and the parser computes `id_hash` from the *raw* extracted
published string while the stored `published` field is that same raw
string only afterwards passed through date normalization. -/
theorem create_article_hash_spec :
    ∀ t p : String,
      create_article_hash t p = sha256hexStr (pystrip t ++ "|" ++ pystrip p)
      ∧ create_article_hash t p
        = create_article_hash (pystrip t) (pystrip p)
      ∧ ∀ (parse : String → Option String) (e : Entry),
          (extract_article_data parse e).id_hash
            = create_article_hash (pystrip (e.title.getD ""))
                (extractPublishedRaw e)
          ∧ (extract_article_data parse e).published
            = normalize_date parse (extractPublishedRaw e) := by
  intro t p
  refine ⟨rfl, ?_, fun parse e => ⟨rfl, rfl⟩⟩
  simp only [create_article_hash, pystrip_idem]

/-- **C8** (validity filter).  An entry's extraction is included in
`parse_rss`'s article list exactly when `_is_valid_article` accepts it,
and on extracted articles that acceptance is equivalent to: trimmed
title non-empty, trimmed title at least 10 characters, and not both
`link` and `id_hash` empty.  A 9-character title is rejected and a
10-character one accepted (link present); rejection just drops the entry
from the list — extraction and filtering are total, so no error is
raised. -/
theorem validity_filter_spec :
    (∀ (parse : String → Option String) (now : String)
        (flink : Option String) (entries : List Entry) (query : String),
        (parse_rss parse now (some ⟨flink, entries⟩) query).articles
          = (entries.map (extract_article_data parse)).filter
              is_valid_article)
    ∧ (∀ (parse : String → Option String) (e : Entry),
        is_valid_article (extract_article_data parse e) = true
          ↔ pystrip (extract_article_data parse e).title ≠ ""
            ∧ 10 ≤ (pystrip (extract_article_data parse e).title).length
            ∧ ¬((extract_article_data parse e).link = ""
                ∧ (extract_article_data parse e).id_hash = ""))
    ∧ is_valid_article (extract_article_data (fun _ => none)
        ⟨some "123456789", some "https://example.com/a", none, none, none,
         none, [], none, none, none⟩) = false
    ∧ is_valid_article (extract_article_data (fun _ => none)
        ⟨some "1234567890", some "https://example.com/a", none, none, none,
         none, [], none, none, none⟩) = true := by
  refine ⟨?_, ?_, by decide, by decide⟩
  · intro parse now flink entries query
    cases entries with
    | nil => rfl
    | cons e es => rfl
  · intro parse e
    have hid0 : (extract_article_data parse e).id_hash ≠ "" := by
      rw [extract_id_hash]
      exact create_article_hash_ne_empty _ _
    have hid : pystrip (extract_article_data parse e).id_hash ≠ "" := by
      rw [extract_id_hash, pystrip_create_article_hash]
      exact create_article_hash_ne_empty _ _
    unfold is_valid_article
    split_ifs with h1 h2 h3
    · simp [h1]
    · exact absurd h2.2 hid
    · simp only [false_iff]
      rintro ⟨-, hlen, -⟩
      omega
    · simp only [true_iff]
      exact ⟨h1, by omega, fun hb => hid0 hb.2⟩

/-- **C9** as stated is false: `normalize_date` does not return the raw
string unmodified on an unparseable date — at `" not a date "` (with the
date parser failing, as `dateutil` does on it) it returns the *trimmed*
string `"not a date"`, which differs from the input. -/
theorem normalize_date_unmodified_counterexample :
    ¬ ∀ (parse : String → Option String) (s : String),
        s ≠ "" → parse s = none → normalize_date parse s = s := by
  intro h
  have hc := h (fun _ => none) " not a date " (by decide) rfl
  exact absurd hc (by decide)

/-- **C9** (amended): for every date string whose trimmed form is
non-empty and which best-effort parsing cannot parse, `normalize_date`
returns the *trimmed* original string (`date_string.strip()`, per the
`except` branch at helpers.py:78) — equal to the raw string exactly when
it carries no surrounding whitespace. -/
theorem normalize_date_returns_trimmed (parse : String → Option String)
    (s : String) (hs : pystrip s ≠ "") (hp : parse s = none) :
    normalize_date parse s = pystrip s := by
  have hcond : ¬(s = "" ∨ pystrip s = "") := by
    rintro (rfl | h)
    · exact hs (by decide)
    · exact hs h
  unfold normalize_date
  rw [if_neg hcond, hp]

/-- Witness for the amended C9 at a concrete unparseable input. -/
theorem normalize_date_returns_trimmed_witness :
    pystrip " raw date " ≠ ""
    ∧ normalize_date (fun _ => none) " raw date " = pystrip " raw date " :=
  ⟨by decide, normalize_date_returns_trimmed (fun _ => none) " raw date "
      (by decide) rfl⟩

/-- **C10** (implicit invariant).  `create_article_hash` always returns a
64-character lowercase-hex digest, hence non-empty; every article built
by `_extract_article_data` therefore has a non-empty `id_hash`, and the
validity-filter branch rejecting articles with both `link` and `id_hash`
empty (after strip) can never fire on parser-produced articles. -/
theorem id_hash_hex_nonempty :
    ∀ t p : String,
      (create_article_hash t p).length = 64
      ∧ (create_article_hash t p).data.all isHexChar = true
      ∧ create_article_hash t p ≠ ""
      ∧ ∀ (parse : String → Option String) (e : Entry),
          (extract_article_data parse e).id_hash ≠ ""
          ∧ ¬(pystrip (extract_article_data parse e).link = ""
              ∧ pystrip (extract_article_data parse e).id_hash = "") := by
  intro t p
  refine ⟨create_article_hash_length t p, ?_,
    create_article_hash_ne_empty t p, fun parse e => ⟨?_, ?_⟩⟩
  · rw [List.all_eq_true]
    intro c hc
    exact create_article_hash_all_hex t p c hc
  · rw [extract_id_hash]
    exact create_article_hash_ne_empty _ _
  · rintro ⟨-, h2⟩
    rw [extract_id_hash, pystrip_create_article_hash] at h2
    exact create_article_hash_ne_empty _ _ h2
